import Mathlib

/-!
Shallow embedding of the python-fastApi-socialAuth repository
(FastAPI + MongoDB authentication backend), covering the code under
`app/modules/auth/auth_service.py`, `app/modules/social_auth/social_auth_service.py`,
`app/services/auth_helper.py`, `app/services/email.py`, `app/decorators/user.py`
and the enums and pydantic schemas they use.

Modelling conventions:
* A MongoDB user document is a `UserDoc`; a field that may be absent from the
  document is an `Option`.  The users collection is a `List UserDoc` in natural
  (insertion) order; `find_one` is `List.find?`, `update_one` updates the first
  matching document, `insert_one` appends.
* ObjectId values are modelled as the strings they stringify to, so
  `str(user["_id"])` and `ObjectId(s)` are both the identity.
* Nondeterministic inputs of the Python code (random OTP, generated expiry
  timestamp, the current unix time, the `datetime.now` verification timestamp,
  freshly allocated ObjectIds, and whether the SMTP send succeeds) are passed
  as explicit parameters.
* A raised Python exception is `Except.error`: `PyError.http` is a FastAPI
  `HTTPException(status_code, detail)`, `PyError.exn` is any other exception
  (SMTP failure propagating out of `send_email`, `KeyError`, `ValueError`,
  `jose.JWTError` before it is caught, ...).
* Stateful service calls return `Except PyError result × List UserDoc`: the
  outcome together with the users collection after the call.
-/

/-- `enums/error_messages.py`: the `EErrorMessages` values used by the
modelled flows. -/
inductive EErrorMessages
  | USER_NOT_EXISTS
  | USER_NOT_VERIFIED
  | USER_ALREADY_EXISTS
  | INVALID_OTP
  | OTP_EXPIRED
  | INVALID_PASSWORD
  | INVALID_TOKEN
  | UNAUTHORIZED_USER
  | UNAUTHORIZED_ACCESS
  | SYSTEM_ERROR
  deriving DecidableEq, Repr

/-- `enums/steps.py`: the `Steps` enum. -/
inductive Steps
  | USER_REGISTER
  | VERIFY_EMAIL
  | SET_PASSWORD
  | SETUP_PASSWORD
  | ACCOUNT_LINKING
  deriving DecidableEq, Repr

/-- A raised Python exception: either a FastAPI `HTTPException` with a status
code and an `EErrorMessages` detail, or any other exception (`KeyError`,
`ValueError`, an SMTP error escaping `send_email`, a `jose.JWTError`, ...). -/
inductive PyError
  | http (status_code : Nat) (detail : EErrorMessages)
  | exn
  deriving DecidableEq, Repr

deriving instance DecidableEq for Except

/-- An entry of the `providers` array of a user document
(`{"providerId": ..., "provider": ...}`). -/
structure Provider where
  providerId : String
  provider : String
  deriving DecidableEq, Repr

/-- A MongoDB document of the `users` collection.  `id` models `_id`
(ObjectId, rendered as a string).  `password` holds the bcrypt hash when the
`password` key is present; `none` models an absent key (social-origin users).
`emailVerifiedAt` is the verification datetime as a unix timestamp, `none`
when absent.  `OTP` and `OTPExpireAt` are `none` when the keys are absent. -/
structure UserDoc where
  id : String
  fullName : String
  email : String
  password : Option String
  emailVerifiedAt : Option Int
  OTP : Option Int
  OTPExpireAt : Option Int
  providers : List Provider
  isActive : Bool
  role : Option String
  deriving DecidableEq, Repr

/-- `update_one(filter_matching_pred, {"$set": ...})`: apply `f` to the first
document satisfying `p`, leave the rest unchanged (no-op when no document
matches, exactly like MongoDB `update_one` with `matched_count = 0`). -/
def update_one (store : List UserDoc) (p : UserDoc → Bool) (f : UserDoc → UserDoc) :
    List UserDoc :=
  match store with
  | [] => []
  | u :: rest => if p u then f u :: rest else u :: update_one rest p f

/-- `update_one({"_id": id}, {"$set": ...})`: update the first document whose
`_id` equals `id`. -/
def update_by_id (store : List UserDoc) (id : String) (f : UserDoc → UserDoc) :
    List UserDoc :=
  update_one store (fun u => u.id == id) f

/-- Python `str.lower()`: per-character lowercasing. -/
def py_lower (s : String) : String := ⟨s.data.map Char.toLower⟩

/-- Value of a run of decimal digit characters. -/
def py_digits_val (ds : List Char) : Nat :=
  ds.foldl (fun n c => 10 * n + (c.toNat - 48)) 0

/-- A nonempty all-digit character run parsed as a natural number. -/
def py_nat_of_digits (ds : List Char) : Option Nat :=
  if ds ≠ [] ∧ ds.all Char.isDigit then some (py_digits_val ds) else none

/-- Python `int(s)` parsing of a decimal string with an optional sign;
`none` models the raised `ValueError`. -/
def py_str_to_int (s : String) : Option Int :=
  match s.data with
  | '-' :: rest => (py_nat_of_digits rest).map (fun n => -(n : Int))
  | '+' :: rest => (py_nat_of_digits rest).map (fun n => (n : Int))
  | ds => (py_nat_of_digits ds).map (fun n => (n : Int))

/-- Python `int(s)` on a string: the parsed integer, or a raised `ValueError`
for a non-numeric string. -/
def python_int (s : String) : Except PyError Int :=
  match py_str_to_int s with
  | some n => .ok n
  | none => .error .exn

namespace AuthHelper

/-- `AuthHelper.SECRET_KEY = os.getenv("JWT_TOKEN_SECRET")`: the server-held
JWT signing secret (same environment variable as in `decorators/user.py`). -/
def SECRET_KEY : String := "JWT_TOKEN_SECRET_VALUE"

/-- `AuthHelper.get_password_hash`: bcrypt hashing via passlib, modelled as a
tagged injective encoding of the plaintext so that `verify_password` succeeds
exactly on the hashed password (the documented passlib contract). -/
def get_password_hash (password : String) : String :=
  "bcrypt$" ++ password

/-- `AuthHelper.verify_password(plain, hashed)`: passlib bcrypt verification,
true exactly when `hashed` is the hash of `plain`. -/
def verify_password (plain hashed : String) : Bool :=
  hashed == get_password_hash plain

end AuthHelper

/-- The claims a JWT carries in this code base: `sub` (the stringified user
ObjectId) and `email`.  `jwt.encode` also adds `exp`; token lifetime is not
modelled because no modelled claim turns on it. -/
structure TokenData where
  sub : Option String
  email : Option String
  deriving DecidableEq, Repr

/-- A signed JWT: its payload together with the key it was signed with.  A
tampered token is one whose `signature` differs from the verification key. -/
structure Jwt where
  payload : TokenData
  signature : String
  deriving DecidableEq, Repr

namespace AuthHelper

/-- `AuthHelper.create_access_token`: signs the payload with `SECRET_KEY`. -/
def create_access_token (data : TokenData) : Jwt :=
  { payload := data, signature := SECRET_KEY }

end AuthHelper

/-- `jose.jwt.decode(token, key, algorithms=["HS256"])`: returns the payload
when the signature verifies with `key`, raises `JWTError` otherwise. -/
def jwt_decode (token : Jwt) (key : String) : Except PyError TokenData :=
  if token.signature == key then .ok token.payload else .error .exn

/-- `services/email.py send_email`: renders a template and performs an SMTP
send.  Only `HTTPException` is caught (and re-raised); an SMTP failure from
`aiosmtplib.send` propagates to the caller, so a failed send is a raised
exception.  `sendOk` is the outcome of the SMTP dispatch attempt. -/
def send_email (sendOk : Bool) : Except PyError Unit :=
  if sendOk then .ok () else .error .exn

namespace UserService

/-- `UserService.formatUser`: stringifies `_id` and `emailVerifiedAt` for the
JSON response.  Both are already strings / typed values in this model, so the
sanitization is the identity on `UserDoc`. -/
def formatUser (user : UserDoc) : UserDoc := user

end UserService

/-- The `ILogin` response payloads the modelled services produce: either a
`{"nextStep": ...}` instruction or a `{"user": ..., "token": ...}` pair. -/
inductive ILogin
  | nextStep (step : Steps)
  | userToken (user : UserDoc) (token : Jwt)
  deriving DecidableEq, Repr

namespace AuthHelper

/-- `AuthHelper.authenticate_user(email, password)`: exact-match lookup by
email (no lowercasing here), then passlib verification against the stored
hash.  `user.get("password")` is `None` for a social-origin user, on which
passlib verification raises — modelled as `.error .exn`. -/
def authenticate_user (store : List UserDoc) (email password : String) :
    Except PyError (Option UserDoc) :=
  match store.find? (fun u => u.email == email) with
  | none => .ok none
  | some user =>
    match user.password with
    | none => .error .exn
    | some hashed =>
      if verify_password password hashed then .ok (some user) else .ok none

end AuthHelper

namespace AuthService

/-- `AuthService.identify_user(email)`: lowercased email lookup; on a missing
user answers `USER_REGISTER` with no write; on an unverified user sends a
registration OTP mail and then stores the fresh OTP and expiry; on a verified
user answers `SET_PASSWORD` with no write.  `otp` and `otpExpireAt` stand for
`AuthHelper.generate_otp()` and `AuthHelper.generate_expiry_time()`. -/
def identify_user (store : List UserDoc) (email : String)
    (otp otpExpireAt : Int) (sendOk : Bool) :
    Except PyError ILogin × List UserDoc :=
  match store.find? (fun u => u.email == py_lower email) with
  | none => (.ok (.nextStep .USER_REGISTER), store)
  | some user =>
    if user.emailVerifiedAt.isNone then
      match send_email sendOk with
      | .error e => (.error e, store)
      | .ok _ =>
        (.ok (.nextStep .VERIFY_EMAIL),
          update_by_id store user.id
            (fun u => { u with OTP := some otp, OTPExpireAt := some otpExpireAt }))
    else
      (.ok (.nextStep .SET_PASSWORD), store)

/-- The fields of the registration request body that reach
`AuthService.register_user` as `user_dict`. -/
structure RegisterDict where
  fullName : String
  email : String
  password : String
  deriving DecidableEq, Repr

/-- `AuthService.register_user(user_dict)`: exact-match duplicate check on the
submitted email (no lowercasing), `409 USER_ALREADY_EXISTS` on a hit with no
write; otherwise inserts the new document (OTP, expiry, role USER, isActive,
hashed password) and only then sends the registration mail.  `newId` is the
ObjectId MongoDB assigns to the inserted document. -/
def register_user (store : List UserDoc) (d : RegisterDict)
    (otp otpExpireAt : Int) (newId : String) (sendOk : Bool) :
    Except PyError Unit × List UserDoc :=
  match store.find? (fun u => u.email == d.email) with
  | some _ => (.error (.http 409 .USER_ALREADY_EXISTS), store)
  | none =>
    let user : UserDoc :=
      { id := newId
        fullName := d.fullName
        email := d.email
        password := some (AuthHelper.get_password_hash d.password)
        emailVerifiedAt := none
        OTP := some otp
        OTPExpireAt := some otpExpireAt
        providers := []
        isActive := true
        role := some "USER" }
    let store2 := store ++ [user]
    match send_email sendOk with
    | .error e => (.error e, store2)
    | .ok _ => (.ok (), store2)

/-- `AuthService.login_user(email, password)`: lowercased email lookup
(`404 USER_NOT_EXISTS` on a miss); on an unverified user sends the
registration mail, stores a fresh OTP and expiry, and raises
`406 USER_NOT_VERIFIED`; otherwise authenticates via
`AuthHelper.authenticate_user` (exact email, `409 INVALID_PASSWORD` on a
mismatch) and returns the formatted user with a token over
`(str(_id), email)`. -/
def login_user (store : List UserDoc) (email password : String)
    (otp otpExpireAt : Int) (sendOk : Bool) :
    Except PyError ILogin × List UserDoc :=
  match store.find? (fun u => u.email == py_lower email) with
  | none => (.error (.http 404 .USER_NOT_EXISTS), store)
  | some user =>
    if user.emailVerifiedAt.isNone then
      match send_email sendOk with
      | .error e => (.error e, store)
      | .ok _ =>
        (.error (.http 406 .USER_NOT_VERIFIED),
          update_by_id store user.id
            (fun u => { u with OTP := some otp, OTPExpireAt := some otpExpireAt }))
    else
      match AuthHelper.authenticate_user store email password with
      | .error e => (.error e, store)
      | .ok none => (.error (.http 409 .INVALID_PASSWORD), store)
      | .ok (some _) =>
        (.ok (.userToken (UserService.formatUser user)
            (AuthHelper.create_access_token
              { sub := some user.id, email := some user.email })),
          store)

/-- `AuthService.verify_user_email(email, otp, is_verify_email)`: lookup by
the `$and` of OTP value and lowercased email (`404 INVALID_OTP` on a miss);
reads `user["OTPExpireAt"]` (`KeyError` when absent); raises
`409 OTP_EXPIRED` when the stored expiry is strictly greater than the current
unix time; otherwise issues a token, stamps `emailVerifiedAt`, and — only
inside the `is_verify_email` branch, after the welcome mail — answers
`SETUP_PASSWORD` when the document has no `password` key; in every other
successful path returns the user plus token.  `now` is `int(time.time())`,
`verifiedAt` the `datetime.now(timezone.utc)` stamp. -/
def verify_user_email (store : List UserDoc) (email : String) (otp : Int)
    (is_verify_email : Bool) (now : Int) (verifiedAt : Int) (sendOk : Bool) :
    Except PyError ILogin × List UserDoc :=
  match store.find? (fun u => u.OTP == some otp && u.email == py_lower email) with
  | none => (.error (.http 404 .INVALID_OTP), store)
  | some user =>
    match user.OTPExpireAt with
    | none => (.error .exn, store)
    | some otp_expire_at =>
      if otp_expire_at > now then
        (.error (.http 409 .OTP_EXPIRED), store)
      else
        let token := AuthHelper.create_access_token
          { sub := some user.id, email := some user.email }
        let store2 := update_by_id store user.id
          (fun u => { u with emailVerifiedAt := some verifiedAt })
        if is_verify_email then
          match send_email sendOk with
          | .error e => (.error e, store2)
          | .ok _ =>
            if user.password.isNone then
              (.ok (.nextStep .SETUP_PASSWORD), store2)
            else
              (.ok (.userToken (UserService.formatUser user) token), store2)
        else
          (.ok (.userToken (UserService.formatUser user) token), store2)

/-- `AuthService.handle_forgot_password(email)`: lowercased email lookup
(`404` on a miss), `409 USER_NOT_VERIFIED` on an unverified user; otherwise
sends the forgot-password mail and then stores the fresh OTP and expiry. -/
def handle_forgot_password (store : List UserDoc) (email : String)
    (otp otpExpireAt : Int) (sendOk : Bool) :
    Except PyError Unit × List UserDoc :=
  match store.find? (fun u => u.email == py_lower email) with
  | none => (.error (.http 404 .USER_NOT_EXISTS), store)
  | some user =>
    if user.emailVerifiedAt.isNone then
      (.error (.http 409 .USER_NOT_VERIFIED), store)
    else
      match send_email sendOk with
      | .error e => (.error e, store)
      | .ok _ =>
        (.ok (), update_by_id store user.id
          (fun u => { u with OTP := some otp, OTPExpireAt := some otpExpireAt }))

/-- `AuthService.handle_resend_otp(email)`: lowercased email lookup (`404` on
a miss); sends the resend-OTP mail and then stores the fresh OTP and
expiry. -/
def handle_resend_otp (store : List UserDoc) (email : String)
    (otp otpExpireAt : Int) (sendOk : Bool) :
    Except PyError Unit × List UserDoc :=
  match store.find? (fun u => u.email == py_lower email) with
  | none => (.error (.http 404 .USER_NOT_EXISTS), store)
  | some user =>
    match send_email sendOk with
    | .error e => (.error e, store)
    | .ok _ =>
      (.ok (), update_by_id store user.id
        (fun u => { u with OTP := some otp, OTPExpireAt := some otpExpireAt }))

end AuthService

/-- `modules/auth/schemas/reset_password.py ResetPasswordSchema`: the request
body of reset-password.  Its only fields are `otp` (`Optional[str]`, default
`None`) and `password` (the validated new password); the schema declares no
`email` field. -/
structure ResetPasswordSchema where
  otp : Option String
  password : String
  deriving DecidableEq, Repr

namespace AuthService

/-- `AuthService.handle_reset_password(reset_password)`: when the schema
carries a truthy `otp` (present, non-`None`, non-empty) the user is looked up
by `{"OTP": int(otp)}` alone; the `elif` branch keyed on
`"email" in dict(reset_password)` can never run because `ResetPasswordSchema`
has no `email` field, so without a truthy `otp` the lookup stays `None` and
the call raises `404 INVALID_OTP`.  After the lookup: `KeyError` when the
document lacks `OTPExpireAt`, `409 OTP_EXPIRED` when the stored expiry is
strictly greater than `now`, otherwise the new password is hashed and
persisted on the matched document. -/
def handle_reset_password (store : List UserDoc) (rp : ResetPasswordSchema)
    (now : Int) : Except PyError Unit × List UserDoc :=
  let looked : Except PyError (Option UserDoc) :=
    match rp.otp with
    | some s =>
      if s == "" then
        .ok none
      else
        match python_int s with
        | .error e => .error e
        | .ok n => .ok (store.find? (fun u => u.OTP == some n))
    | none => .ok none
  match looked with
  | .error e => (.error e, store)
  | .ok none => (.error (.http 404 .INVALID_OTP), store)
  | .ok (some user) =>
    match user.OTPExpireAt with
    | none => (.error .exn, store)
    | some otp_expire_at =>
      if otp_expire_at > now then
        (.error (.http 409 .OTP_EXPIRED), store)
      else
        (.ok (), update_by_id store user.id
          (fun u => { u with password := some (AuthHelper.get_password_hash rp.password) }))

end AuthService

/-- `schemas/link_account.py LinkAccountDto`: the request body of
link-accounts. -/
structure LinkAccountDto where
  email : String
  otp : String
  providerId : String
  provider : String
  deriving DecidableEq, Repr

namespace SocialAuthService

/-- `SocialAuthService.social_login(email, full_name, provider_id, provider)`:
lowercased email lookup.  On a miss, inserts a document holding only
`fullName`, the email as submitted (not lowercased), the single provider
entry and `isActive` — no `password`, no `emailVerifiedAt`, no OTP — refetches
it by the inserted id and returns it with a token.  On a hit whose provider
list lacks the exact `(providerId, provider)` pair, stores a fresh OTP and
expiry first, then sends the account-linking mail and answers
`ACCOUNT_LINKING`; on a hit with the pair present, returns the user with a
token. -/
def social_login (store : List UserDoc)
    (email full_name provider_id provider : String)
    (otp otpExpireAt : Int) (newId : String) (sendOk : Bool) :
    Except PyError ILogin × List UserDoc :=
  match store.find? (fun u => u.email == py_lower email) with
  | none =>
    let user_data : UserDoc :=
      { id := newId
        fullName := full_name
        email := email
        password := none
        emailVerifiedAt := none
        OTP := none
        OTPExpireAt := none
        providers := [{ providerId := provider_id, provider := provider }]
        isActive := true
        role := none }
    let store2 := store ++ [user_data]
    match store2.find? (fun u => u.id == newId) with
    | none => (.error .exn, store2)
    | some updated_user =>
      (.ok (.userToken (UserService.formatUser updated_user)
          (AuthHelper.create_access_token
            { sub := some updated_user.id, email := some updated_user.email })),
        store2)
  | some user =>
    match user.providers.find?
        (fun p => p.providerId == provider_id && p.provider == provider) with
    | none =>
      let store2 := update_by_id store user.id
        (fun u => { u with OTP := some otp, OTPExpireAt := some otpExpireAt })
      match send_email sendOk with
      | .error e => (.error e, store2)
      | .ok _ => (.ok (.nextStep .ACCOUNT_LINKING), store2)
    | some _ =>
      (.ok (.userToken (UserService.formatUser user)
          (AuthHelper.create_access_token
            { sub := some user.id, email := some user.email })),
        store)

/-- `SocialAuthService.link_account(link_account_dto)`: lookup by the exact
submitted email together with `int(otp)` (`404 INVALID_OTP` on a miss);
`KeyError` when the document lacks `OTPExpireAt`; `409 OTP_EXPIRED` when the
stored expiry is strictly greater than `now`.  Otherwise runs `update_one`
whose filter also requires `providers.provider != dto.provider` (MongoDB
`$ne` over the array: no element may carry that provider name), pushing the
new provider entry and setting `emailVerifiedAt` — a no-op when the provider
name is already present; then issues a token over the originally matched user
and refetches the document by id. -/
def link_account (store : List UserDoc) (dto : LinkAccountDto)
    (now : Int) (verifiedAt : Int) :
    Except PyError ILogin × List UserDoc :=
  match python_int dto.otp with
  | .error e => (.error e, store)
  | .ok n =>
    match store.find? (fun u => u.email == dto.email && u.OTP == some n) with
    | none => (.error (.http 404 .INVALID_OTP), store)
    | some user =>
      match user.OTPExpireAt with
      | none => (.error .exn, store)
      | some otp_expire_at =>
        if otp_expire_at > now then
          (.error (.http 409 .OTP_EXPIRED), store)
        else
          let store2 := update_one store
            (fun u => u.id == user.id &&
              u.providers.all (fun p => p.provider != dto.provider))
            (fun u =>
              { u with
                providers := u.providers ++
                  [{ providerId := dto.providerId, provider := dto.provider }]
                emailVerifiedAt := some verifiedAt })
          let token := AuthHelper.create_access_token
            { sub := some user.id, email := some user.email }
          match store2.find? (fun u => u.id == user.id) with
          | none => (.error .exn, store2)
          | some refetched =>
            (.ok (.userToken (UserService.formatUser refetched) token), store2)

end SocialAuthService

/-- The observable outcome of the `UserDecorator` auth middleware
(`decorators/user.py`): a short-circuit JSON response from `raise_response`,
proceeding into the wrapped handler with the resolved user attached to
`request.state.user`, or an unhandled exception (`crash`: the `sub is None`
path calls `raise_response` without returning it and then evaluates
`ObjectId(None)`, which raises). -/
inductive AuthOutcome
  | response (status_code : Nat) (detail : EErrorMessages)
  | proceed (user : UserDoc)
  | crash
  deriving DecidableEq, Repr

/-- `decorators/user.py UserDecorator`: missing `Authorization` header gives
`401 UNAUTHORIZED_ACCESS`; a token failing signature verification gives
`401 INVALID_TOKEN` (the caught `JWTError`); a verified token whose `sub`
resolves to no stored user gives `404 USER_NOT_EXISTS`; otherwise the
sanitized user is attached and the handler runs.  `authorization` is the
bearer token carried by the header, `none` when the header is absent. -/
def UserDecorator (authorization : Option Jwt) (store : List UserDoc) :
    AuthOutcome :=
  match authorization with
  | none => .response 401 .UNAUTHORIZED_ACCESS
  | some token =>
    match jwt_decode token AuthHelper.SECRET_KEY with
    | .error _ => .response 401 .INVALID_TOKEN
    | .ok payload =>
      match payload.sub with
      | none => .crash
      | some sub =>
        match store.find? (fun u => u.id == sub) with
        | none => .response 404 .USER_NOT_EXISTS
        | some user => .proceed (UserService.formatUser user)

/-! ### Fixture documents used by the concrete witnesses and counterexamples -/

/-- A verified user with a stored (already-acceptable) OTP 4821 and a local
password hash. -/
def annDoc : UserDoc :=
  { id := "id-ann"
    fullName := "Ann"
    email := "ann@x.com"
    password := some (AuthHelper.get_password_hash "Oldpass1!")
    emailVerifiedAt := some 10
    OTP := some 4821
    OTPExpireAt := some 50
    providers := []
    isActive := true
    role := some "USER" }

/-- A registered but still unverified user with a stored OTP 1111. -/
def bobDoc : UserDoc :=
  { id := "id-bob"
    fullName := "Bob"
    email := "bob@x.com"
    password := some (AuthHelper.get_password_hash "Bobpass1!")
    emailVerifiedAt := none
    OTP := some 1111
    OTPExpireAt := some 60
    providers := []
    isActive := true
    role := some "USER" }

/-- A social-origin user: no `password` key, no `emailVerifiedAt`, one linked
provider, and a stored OTP 2222 with (acceptable) expiry 50. -/
def calDoc : UserDoc :=
  { id := "id-cal"
    fullName := "Cal"
    email := "cal@x.com"
    password := none
    emailVerifiedAt := none
    OTP := some 2222
    OTPExpireAt := some 50
    providers := [{ providerId := "g-1", provider := "google" }]
    isActive := true
    role := none }

/-- The document `social_login` creates for the new email `Alice@x.com`:
stored with the email exactly as submitted (not lowercased). -/
def aliceDoc : UserDoc :=
  { id := "id-alice"
    fullName := "Alice"
    email := "Alice@x.com"
    password := none
    emailVerifiedAt := none
    OTP := none
    OTPExpireAt := none
    providers := [{ providerId := "p-9", provider := "google" }]
    isActive := true
    role := none }

/-! ### Generic lemmas about the modelled store operations -/

theorem update_one_eq_of_forall_neg {l : List UserDoc} {p : UserDoc → Bool}
    {f : UserDoc → UserDoc} (h : ∀ v ∈ l, p v = false) :
    update_one l p f = l := by
  induction l with
  | nil => rfl
  | cons a t ih =>
    have ha := h a (List.mem_cons_self a t)
    simp [update_one, ha, ih (fun v hv => h v (List.mem_cons_of_mem a hv))]

theorem update_one_append_sandwich {pre post : List UserDoc} {u : UserDoc}
    {p : UserDoc → Bool} {f : UserDoc → UserDoc}
    (hpre : ∀ v ∈ pre, p v = false) (hu : p u = true) :
    update_one (pre ++ u :: post) p f = pre ++ f u :: post := by
  induction pre with
  | nil => simp [update_one, hu]
  | cons a t ih =>
    have ha := hpre a (List.mem_cons_self a t)
    simp [update_one, ha, ih (fun v hv => hpre v (List.mem_cons_of_mem a hv))]

theorem find?_sandwich {α : Type} {pre post : List α} {u : α} {p : α → Bool}
    (hpre : ∀ v ∈ pre, p v = false) (hu : p u = true) :
    (pre ++ u :: post).find? p = some u := by
  rw [List.find?_append]
  have hnone : pre.find? p = none :=
    List.find?_eq_none.mpr (fun x hx => by simp [hpre x hx])
  simp [hnone, List.find?_cons_of_pos _ hu]

theorem find?_eq_of_mem_unique {α : Type} {l : List α} {p : α → Bool} {u : α}
    (hmem : u ∈ l) (hu : p u = true)
    (huniq : ∀ v ∈ l, p v = true → v = u) :
    l.find? p = some u := by
  induction l with
  | nil => cases hmem
  | cons a t ih =>
    by_cases ha : p a = true
    · have : a = u := huniq a (List.mem_cons_self a t) ha
      subst this
      exact List.find?_cons_of_pos _ ha
    · have ha' : ¬ p a := by simpa using ha
      rw [List.find?_cons_of_neg _ ha']
      rcases List.mem_cons.mp hmem with h | h
      · exact absurd (h ▸ hu) (by simpa using ha)
      · exact ih h (fun v hv hpv => huniq v (List.mem_cons_of_mem a hv) hpv)

/-! ### C1 -/

/-- C1: in each OTP-consuming operation (`verify_user_email`,
`handle_reset_password`, `link_account`), once the lookup has matched a user
whose document carries a stored expiry, the call fails with
`409 OTP_EXPIRED` exactly when `OTPExpireAt` is strictly greater than the
current unix time, and the submitted code is accepted (the expiry gate passes
— stated as the negation of the `OTP_EXPIRED` failure, and positively for the
reset flow, which then succeeds outright, and for the verification flow with
a successful mail send) exactly when `OTPExpireAt ≤ now`: the literal
comparison direction the spec pins. -/
theorem otp_expiry_literal_comparison
    (now verifiedAt : Int) (iv sOk : Bool)
    (store1 : List UserDoc) (email1 : String) (otp1 : Int) (u1 : UserDoc) (e1 : Int)
    (h1 : store1.find? (fun u => u.OTP == some otp1 && u.email == py_lower email1) = some u1)
    (he1 : u1.OTPExpireAt = some e1)
    (store2 : List UserDoc) (rp : ResetPasswordSchema) (s2 : String) (n2 : Int)
    (u2 : UserDoc) (e2 : Int)
    (hotp : rp.otp = some s2) (hs2 : (s2 == "") = false) (hn2 : py_str_to_int s2 = some n2)
    (h2 : store2.find? (fun u => u.OTP == some n2) = some u2)
    (he2 : u2.OTPExpireAt = some e2)
    (store3 : List UserDoc) (dto : LinkAccountDto) (n3 : Int) (u3 : UserDoc) (e3 : Int)
    (hn3 : py_str_to_int dto.otp = some n3)
    (h3 : store3.find? (fun u => u.email == dto.email && u.OTP == some n3) = some u3)
    (he3 : u3.OTPExpireAt = some e3) :
    (((AuthService.verify_user_email store1 email1 otp1 iv now verifiedAt sOk).fst
        = .error (.http 409 .OTP_EXPIRED)) ↔ e1 > now)
    ∧ ((∃ r, (AuthService.verify_user_email store1 email1 otp1 iv now verifiedAt true).fst
        = .ok r) ↔ e1 ≤ now)
    ∧ (((AuthService.handle_reset_password store2 rp now).fst
        = .error (.http 409 .OTP_EXPIRED)) ↔ e2 > now)
    ∧ (((AuthService.handle_reset_password store2 rp now).fst = .ok ()) ↔ e2 ≤ now)
    ∧ (((SocialAuthService.link_account store3 dto now verifiedAt).fst
        = .error (.http 409 .OTP_EXPIRED)) ↔ e3 > now) := by
  refine ⟨?_, ?_, ?_, ?_, ?_⟩
  · by_cases hgt : e1 > now
    · simp [AuthService.verify_user_email, h1, he1, hgt]
    · cases iv <;> cases sOk <;> cases hp : u1.password <;>
        simp [AuthService.verify_user_email, h1, he1, hgt, send_email, hp]
  · by_cases hgt : e1 > now
    · simp [AuthService.verify_user_email, h1, he1, hgt, Int.not_le.mpr hgt]
    · cases iv <;> cases hp : u1.password <;>
        simp [AuthService.verify_user_email, h1, he1, hgt, send_email, hp,
          Int.not_lt.mp hgt]
  · by_cases hgt : e2 > now
    · simp [AuthService.handle_reset_password, hotp, hs2, python_int, hn2, h2, he2, hgt]
    · simp [AuthService.handle_reset_password, hotp, hs2, python_int, hn2, h2, he2, hgt]
  · by_cases hgt : e2 > now
    · simp [AuthService.handle_reset_password, hotp, hs2, python_int, hn2, h2, he2, hgt,
        Int.not_le.mpr hgt]
    · simp [AuthService.handle_reset_password, hotp, hs2, python_int, hn2, h2, he2, hgt,
        Int.not_lt.mp hgt]
  · by_cases hgt : e3 > now
    · simp [SocialAuthService.link_account, python_int, hn3, h3, he3, hgt]
    · cases hfind : (update_one store3
          (fun u => u.id == u3.id && u.providers.all (fun p => p.provider != dto.provider))
          (fun u =>
            { u with
              providers := u.providers ++
                [{ providerId := dto.providerId, provider := dto.provider }]
              emailVerifiedAt := some verifiedAt })).find? (fun u => u.id == u3.id) <;>
        simp [SocialAuthService.link_account, python_int, hn3, h3, he3, hgt, hfind]

/-- Witness for C1: the three OTP gates evaluated on a concrete store holding
`annDoc` (stored expiry 50) at current time 100. -/
theorem otp_expiry_literal_comparison_witness :
    (((AuthService.verify_user_email [annDoc] "ann@x.com" 4821 false 100 100 false).fst
        = .error (.http 409 .OTP_EXPIRED)) ↔ (50 : Int) > 100)
    ∧ ((∃ r, (AuthService.verify_user_email [annDoc] "ann@x.com" 4821 false 100 100 true).fst
        = .ok r) ↔ (50 : Int) ≤ 100)
    ∧ (((AuthService.handle_reset_password [annDoc]
          { otp := some "4821", password := "Newpass1!" } 100).fst
        = .error (.http 409 .OTP_EXPIRED)) ↔ (50 : Int) > 100)
    ∧ (((AuthService.handle_reset_password [annDoc]
          { otp := some "4821", password := "Newpass1!" } 100).fst = .ok ()) ↔ (50 : Int) ≤ 100)
    ∧ (((SocialAuthService.link_account [annDoc]
          { email := "ann@x.com", otp := "4821", providerId := "pid", provider := "google" }
          100 100).fst
        = .error (.http 409 .OTP_EXPIRED)) ↔ (50 : Int) > 100) :=
  otp_expiry_literal_comparison 100 100 false false
    [annDoc] "ann@x.com" 4821 annDoc 50 (by decide) (by decide)
    [annDoc] { otp := some "4821", password := "Newpass1!" } "4821" 4821 annDoc 50
    rfl (by decide) (by decide) (by decide) (by decide)
    [annDoc] { email := "ann@x.com", otp := "4821", providerId := "pid", provider := "google" }
    4821 annDoc 50 (by decide) (by decide) (by decide)

/-! ### C2 -/

/-- C2: `identify_user` answers `USER_REGISTER` with no write when no user
matches the lowercased email; answers `SET_PASSWORD` with no write when the
matched user has `emailVerifiedAt` set; and only in the unverified branch
stores a newly generated OTP and expiry (overwriting any previous values via
`$set` on the matched document) and answers `VERIFY_EMAIL`. -/
theorem identify_user_branches
    (store : List UserDoc) (email : String) (otp otpExpireAt : Int) (sOk : Bool) :
    (store.find? (fun v => v.email == py_lower email) = none →
      AuthService.identify_user store email otp otpExpireAt sOk
        = (.ok (.nextStep .USER_REGISTER), store))
    ∧ (∀ u t, store.find? (fun v => v.email == py_lower email) = some u →
        u.emailVerifiedAt = some t →
        AuthService.identify_user store email otp otpExpireAt sOk
          = (.ok (.nextStep .SET_PASSWORD), store))
    ∧ (∀ u, store.find? (fun v => v.email == py_lower email) = some u →
        u.emailVerifiedAt = none →
        AuthService.identify_user store email otp otpExpireAt true
          = (.ok (.nextStep .VERIFY_EMAIL),
            update_by_id store u.id
              (fun v => { v with OTP := some otp, OTPExpireAt := some otpExpireAt }))) := by
  refine ⟨?_, ?_, ?_⟩
  · intro h
    simp [AuthService.identify_user, h]
  · intro u t h ht
    simp [AuthService.identify_user, h, ht]
  · intro u h hu
    simp [AuthService.identify_user, h, hu, send_email]

/-- Witness for C2: the three branches on concrete one-user stores. -/
theorem identify_user_branches_witness :
    (AuthService.identify_user [annDoc] "zoe@x.com" 1234 999 true
      = (.ok (.nextStep .USER_REGISTER), [annDoc]))
    ∧ (AuthService.identify_user [annDoc] "ann@x.com" 1234 999 true
      = (.ok (.nextStep .SET_PASSWORD), [annDoc]))
    ∧ (AuthService.identify_user [bobDoc] "bob@x.com" 1234 999 true
      = (.ok (.nextStep .VERIFY_EMAIL),
        update_by_id [bobDoc] bobDoc.id
          (fun v => { v with OTP := some 1234, OTPExpireAt := some 999 }))) :=
  ⟨(identify_user_branches [annDoc] "zoe@x.com" 1234 999 true).1 (by decide),
   (identify_user_branches [annDoc] "ann@x.com" 1234 999 true).2.1 annDoc 10
     (by decide) (by decide),
   (identify_user_branches [bobDoc] "bob@x.com" 1234 999 true).2.2 bobDoc
     (by decide) (by decide)⟩

/-! ### C3 -/

/-- C3: for a matched user whose `emailVerifiedAt` is unset, `login_user`
(with a successful mail send) stores the newly generated OTP and expiry via
`$set` on the matched document and then raises `406 USER_NOT_VERIFIED`;
the outcome is the same for every submitted password (the password is never
checked) and is an error, so no token is issued. -/
theorem login_unverified_issues_otp_then_fails
    (store : List UserDoc) (email password : String) (otp otpExpireAt : Int)
    (u : UserDoc)
    (hfind : store.find? (fun v => v.email == py_lower email) = some u)
    (hunv : u.emailVerifiedAt = none) :
    AuthService.login_user store email password otp otpExpireAt true
      = (.error (.http 406 .USER_NOT_VERIFIED),
        update_by_id store u.id
          (fun v => { v with OTP := some otp, OTPExpireAt := some otpExpireAt }))
    ∧ (∀ password2,
        AuthService.login_user store email password2 otp otpExpireAt true
          = AuthService.login_user store email password otp otpExpireAt true) := by
  constructor
  · simp [AuthService.login_user, hfind, hunv, send_email]
  · intro password2
    simp [AuthService.login_user, hfind, hunv, send_email]

/-- Witness for C3: unverified `bobDoc`, arbitrary password. -/
theorem login_unverified_issues_otp_then_fails_witness :
    AuthService.login_user [bobDoc] "bob@x.com" "whatever" 1234 999 true
      = (.error (.http 406 .USER_NOT_VERIFIED),
        update_by_id [bobDoc] bobDoc.id
          (fun v => { v with OTP := some 1234, OTPExpireAt := some 999 }))
    ∧ (∀ password2,
        AuthService.login_user [bobDoc] "bob@x.com" password2 1234 999 true
          = AuthService.login_user [bobDoc] "bob@x.com" "whatever" 1234 999 true) :=
  login_unverified_issues_otp_then_fails [bobDoc] "bob@x.com" "whatever" 1234 999
    bobDoc (by decide) (by decide)

/-! ### C4 -/

/-- C4 counterexample: the duplicate check of `register_user` is an exact
string match, not case-insensitive.  With `annDoc` (email `ann@x.com`) in the
store, registering `Ann@x.com` — the same email up to case — does not fail
with `409 USER_ALREADY_EXISTS`: it succeeds and inserts a second document. -/
theorem register_case_insensitive_counterexample :
    py_lower "Ann@x.com" = annDoc.email
    ∧ (AuthService.register_user [annDoc]
        { fullName := "Ann Two", email := "Ann@x.com", password := "Passw0rd!" }
        1234 999 "id-new" true).fst = .ok ()
    ∧ (AuthService.register_user [annDoc]
        { fullName := "Ann Two", email := "Ann@x.com", password := "Passw0rd!" }
        1234 999 "id-new" true).snd.length = 2 := by
  decide

/-- C4 amended: `register_user` fails with `409 USER_ALREADY_EXISTS` and
leaves the store unchanged exactly when the submitted email already exists
under exact (case-sensitive) string comparison; when no exact match exists it
inserts the new document (appending it to the collection), even if the email
matches an existing one case-insensitively. -/
theorem register_exact_duplicate_conflict
    (store : List UserDoc) (d : AuthService.RegisterDict)
    (otp otpExpireAt : Int) (newId : String) :
    (∀ u, store.find? (fun v => v.email == d.email) = some u →
      AuthService.register_user store d otp otpExpireAt newId true
        = (.error (.http 409 .USER_ALREADY_EXISTS), store))
    ∧ (store.find? (fun v => v.email == d.email) = none →
      AuthService.register_user store d otp otpExpireAt newId true
        = (.ok (), store ++
          [{ id := newId
             fullName := d.fullName
             email := d.email
             password := some (AuthHelper.get_password_hash d.password)
             emailVerifiedAt := none
             OTP := some otp
             OTPExpireAt := some otpExpireAt
             providers := []
             isActive := true
             role := some "USER" }])) := by
  constructor
  · intro u h
    simp [AuthService.register_user, h]
  · intro h
    simp [AuthService.register_user, h, send_email]

/-- Witness for the amended C4: an exact duplicate conflicts with no change;
the case-variant duplicate is inserted. -/
theorem register_exact_duplicate_conflict_witness :
    (AuthService.register_user [annDoc]
      { fullName := "Ann Two", email := "ann@x.com", password := "Passw0rd!" }
      1234 999 "id-new" true
      = (.error (.http 409 .USER_ALREADY_EXISTS), [annDoc]))
    ∧ (AuthService.register_user [annDoc]
      { fullName := "Ann Two", email := "Ann@x.com", password := "Passw0rd!" }
      1234 999 "id-new" true
      = (.ok (), [annDoc] ++
        [{ id := "id-new"
           fullName := "Ann Two"
           email := "Ann@x.com"
           password := some (AuthHelper.get_password_hash "Passw0rd!")
           emailVerifiedAt := none
           OTP := some 1234
           OTPExpireAt := some 999
           providers := []
           isActive := true
           role := some "USER" }])) :=
  ⟨(register_exact_duplicate_conflict [annDoc]
      { fullName := "Ann Two", email := "ann@x.com", password := "Passw0rd!" }
      1234 999 "id-new").1 annDoc (by decide),
   (register_exact_duplicate_conflict [annDoc]
      { fullName := "Ann Two", email := "Ann@x.com", password := "Passw0rd!" }
      1234 999 "id-new").2 (by decide)⟩

/-! ### C5 -/

/-- C5 counterexample: for the passwordless user `calDoc` with a matching
`(email, OTP)` pair and a passing expiry check, calling `verify_user_email`
with `is_verify_email = false` does NOT answer `SETUP_PASSWORD`: it returns
the token+user payload, so the `SETUP_PASSWORD` signal is not issued
regardless of the flag. -/
theorem verify_email_setup_password_counterexample :
    calDoc.password = none
    ∧ (AuthService.verify_user_email [calDoc] "cal@x.com" 2222 false 100 77 true).fst
        ≠ .ok (.nextStep .SETUP_PASSWORD)
    ∧ (AuthService.verify_user_email [calDoc] "cal@x.com" 2222 false 100 77 true).fst
        = .ok (.userToken (UserService.formatUser calDoc)
            (AuthHelper.create_access_token
              { sub := some "id-cal", email := some "cal@x.com" })) := by
  decide

/-- C5 amended: when the `(email, OTP)` lookup matches, the expiry check
passes, the matched document has no `password` key, AND `isVerifyEmail` is
true (with the welcome mail send succeeding), `verify_user_email` answers
`SETUP_PASSWORD` instead of a token+user payload; with `isVerifyEmail` false
the same passwordless user receives the token+user payload. -/
theorem verify_email_passwordless_setup_password
    (store : List UserDoc) (email : String) (otp : Int)
    (now verifiedAt : Int) (u : UserDoc) (e : Int)
    (hfind : store.find? (fun v => v.OTP == some otp && v.email == py_lower email)
      = some u)
    (hexp : u.OTPExpireAt = some e) (hle : e ≤ now)
    (hpw : u.password = none) :
    (AuthService.verify_user_email store email otp true now verifiedAt true).fst
      = .ok (.nextStep .SETUP_PASSWORD)
    ∧ (AuthService.verify_user_email store email otp false now verifiedAt true).fst
      = .ok (.userToken (UserService.formatUser u)
          (AuthHelper.create_access_token
            { sub := some u.id, email := some u.email })) := by
  have hnot : ¬ (e > now) := Int.not_lt.mpr hle
  constructor
  · simp [AuthService.verify_user_email, hfind, hexp, hnot, send_email, hpw]
  · simp [AuthService.verify_user_email, hfind, hexp, hnot, send_email, hpw]

/-- Witness for the amended C5: `calDoc` with the flag set answers
`SETUP_PASSWORD`; with the flag unset it receives the token payload. -/
theorem verify_email_passwordless_setup_password_witness :
    (AuthService.verify_user_email [calDoc] "cal@x.com" 2222 true 100 77 true).fst
      = .ok (.nextStep .SETUP_PASSWORD)
    ∧ (AuthService.verify_user_email [calDoc] "cal@x.com" 2222 false 100 77 true).fst
      = .ok (.userToken (UserService.formatUser calDoc)
          (AuthHelper.create_access_token
            { sub := some calDoc.id, email := some calDoc.email })) :=
  verify_email_passwordless_setup_password [calDoc] "cal@x.com" 2222 100 77 calDoc 50
    (by decide) (by decide) (by decide) (by decide)

/-! ### C6 -/

theorem verify_password_self (a : String) :
    AuthHelper.verify_password a (AuthHelper.get_password_hash a) = true := by
  simp [AuthHelper.verify_password]

theorem verify_password_hash_ne {a b : String} (h : a ≠ b) :
    AuthHelper.verify_password a (AuthHelper.get_password_hash b) = false := by
  simp only [AuthHelper.verify_password, AuthHelper.get_password_hash,
    beq_eq_false_iff_ne, ne_eq]
  intro hc
  have hd := congrArg String.data hc
  simp [String.data_append] at hd
  exact h (String.ext hd).symm

/-- C6 counterexample: `ResetPasswordSchema` has no `email` field, so an
email can never serve as the lookup key of `handle_reset_password`.  With
`annDoc` in the store (its email present, its stored expiry acceptable at
time 100), a reset request carrying no OTP fails `404 INVALID_OTP` with no
write — the email lookup branch is unreachable. -/
theorem reset_password_email_lookup_counterexample :
    annDoc.email = "ann@x.com"
    ∧ annDoc.OTPExpireAt = some 50 ∧ (50 : Int) ≤ 100
    ∧ AuthService.handle_reset_password [annDoc]
        { otp := none, password := "Newpass1!" } 100
      = (.error (.http 404 .INVALID_OTP), [annDoc]) := by
  decide

/-- C6 amended: `handle_reset_password` accepts only an OTP as the lookup key
(the schema has no `email` field, so the email branch is dead code).  When
the submitted OTP string parses to the stored code of the first matching
user, the expiry check passes, and that user is a verified user with a
lowercase email and the old password hash, the new password is hashed and
persisted on the matched document; afterwards a login with the new password
succeeds with a token, while a login with the (different) old password fails
`409 INVALID_PASSWORD`. -/
theorem reset_password_persists_new_password
    (pre post : List UserDoc) (u : UserDoc) (e oldP newP s : String)
    (n exp t now otp2 exp2 : Int) (sOk : Bool)
    (hemail : u.email = e)
    (hlow : py_lower e = e)
    (ht : u.emailVerifiedAt = some t)
    (_hpw : u.password = some (AuthHelper.get_password_hash oldP))
    (hse : (s == "") = false)
    (hparse : py_str_to_int s = some n)
    (hu1 : (u.OTP == some n) = true)
    (hexp : u.OTPExpireAt = some exp)
    (hle : exp ≤ now)
    (hpre1 : ∀ v ∈ pre, (v.OTP == some n) = false)
    (hpre2 : ∀ v ∈ pre, (v.email == e) = false)
    (hpre3 : ∀ v ∈ pre, (v.id == u.id) = false)
    (hnp : newP ≠ oldP) :
    AuthService.handle_reset_password (pre ++ u :: post)
      { otp := some s, password := newP } now
      = (.ok (), pre ++
          { u with password := some (AuthHelper.get_password_hash newP) } :: post)
    ∧ AuthService.login_user
        (pre ++ { u with password := some (AuthHelper.get_password_hash newP) } :: post)
        e newP otp2 exp2 sOk
      = (.ok (.userToken
          (UserService.formatUser
            { u with password := some (AuthHelper.get_password_hash newP) })
          (AuthHelper.create_access_token
            { sub := some u.id, email := some u.email })),
        pre ++ { u with password := some (AuthHelper.get_password_hash newP) } :: post)
    ∧ (AuthService.login_user
        (pre ++ { u with password := some (AuthHelper.get_password_hash newP) } :: post)
        e oldP otp2 exp2 sOk).fst
      = .error (.http 409 .INVALID_PASSWORD) := by
  have hnot : ¬ (exp > now) := Int.not_lt.mpr hle
  have hfind1 : (pre ++ u :: post).find? (fun v => v.OTP == some n) = some u :=
    find?_sandwich hpre1 hu1
  have hupd : update_by_id (pre ++ u :: post) u.id
      (fun v => { v with password := some (AuthHelper.get_password_hash newP) })
      = pre ++ { u with password := some (AuthHelper.get_password_hash newP) } :: post :=
    update_one_append_sandwich hpre3 (by simp)
  have hfinde : (pre ++
      { u with password := some (AuthHelper.get_password_hash newP) } :: post).find?
        (fun v => v.email == py_lower e)
      = some { u with password := some (AuthHelper.get_password_hash newP) } := by
    rw [hlow]
    exact find?_sandwich hpre2 (by simp [hemail])
  have hfindx : (pre ++
      { u with password := some (AuthHelper.get_password_hash newP) } :: post).find?
        (fun v => v.email == e)
      = some { u with password := some (AuthHelper.get_password_hash newP) } :=
    find?_sandwich hpre2 (by simp [hemail])
  have hb : u.emailVerifiedAt.isNone = false := by rw [ht]; rfl
  refine ⟨?_, ?_, ?_⟩
  · simp only [AuthService.handle_reset_password, hse, python_int, hparse, hfind1,
      Bool.false_eq_true, if_false, hexp]
    rw [if_neg hnot, hupd, hexp]
  · have hauth : AuthHelper.authenticate_user
        (pre ++ { u with password := some (AuthHelper.get_password_hash newP) } :: post)
        e newP
        = .ok (some { u with password := some (AuthHelper.get_password_hash newP) }) := by
      unfold AuthHelper.authenticate_user
      rw [hfindx]
      simp [AuthHelper.verify_password]
    unfold AuthService.login_user
    simp only [hfinde, hb, Bool.false_eq_true, if_false, hauth]
  · have hauth : AuthHelper.authenticate_user
        (pre ++ { u with password := some (AuthHelper.get_password_hash newP) } :: post)
        e oldP
        = .ok none := by
      unfold AuthHelper.authenticate_user
      rw [hfindx]
      simp [verify_password_hash_ne (Ne.symm hnp)]
    unfold AuthService.login_user
    simp only [hfinde, hb, Bool.false_eq_true, if_false, hauth]

/-- Witness for the amended C6: `annDoc` (OTP 4821, expiry 50 acceptable at
time 100) gets the new password persisted; the new password then logs in,
the old one fails. -/
theorem reset_password_persists_new_password_witness :
    AuthService.handle_reset_password [annDoc]
      { otp := some "4821", password := "Newpass1!" } 100
      = (.ok (), [{ annDoc with
          password := some (AuthHelper.get_password_hash "Newpass1!") }])
    ∧ AuthService.login_user
        [{ annDoc with password := some (AuthHelper.get_password_hash "Newpass1!") }]
        "ann@x.com" "Newpass1!" 7 8 true
      = (.ok (.userToken
          (UserService.formatUser
            { annDoc with password := some (AuthHelper.get_password_hash "Newpass1!") })
          (AuthHelper.create_access_token
            { sub := some annDoc.id, email := some annDoc.email })),
        [{ annDoc with password := some (AuthHelper.get_password_hash "Newpass1!") }])
    ∧ (AuthService.login_user
        [{ annDoc with password := some (AuthHelper.get_password_hash "Newpass1!") }]
        "ann@x.com" "Oldpass1!" 7 8 true).fst
      = .error (.http 409 .INVALID_PASSWORD) :=
  reset_password_persists_new_password [] [] annDoc "ann@x.com" "Oldpass1!"
    "Newpass1!" "4821" 4821 50 10 100 7 8 true
    rfl (by decide) rfl rfl (by decide) (by decide) (by decide) rfl (by decide)
    (by simp) (by simp) (by simp) (by decide)

/-! ### C7 -/

/-- C7: for a `link_account` call whose `(email, OTP)` lookup matches and
whose expiry check passes, the guarded `update_one` (filter
`providers.provider $ne dto.provider`) never duplicates a provider name: if
the submitted provider name is already on the matched user, nothing changes
(and the user is returned with a token); otherwise the new
`{providerId, provider}` entry is appended, `emailVerifiedAt` is stamped, and
the token bound to `(user id, email)` is issued — and a provider list whose
names were pairwise distinct stays so. -/
theorem link_account_no_duplicate_provider
    (pre post : List UserDoc) (u : UserDoc) (dto : LinkAccountDto)
    (n now verifiedAt exp : Int)
    (hparse : py_str_to_int dto.otp = some n)
    (hpre : ∀ v ∈ pre, (v.email == dto.email && v.OTP == some n) = false)
    (hu : (u.email == dto.email && u.OTP == some n) = true)
    (hexp : u.OTPExpireAt = some exp) (hle : exp ≤ now)
    (hpre_id : ∀ v ∈ pre, (v.id == u.id) = false)
    (hpost_id : ∀ v ∈ post, (v.id == u.id) = false) :
    (dto.provider ∈ u.providers.map Provider.provider →
      SocialAuthService.link_account (pre ++ u :: post) dto now verifiedAt
        = (.ok (.userToken (UserService.formatUser u)
            (AuthHelper.create_access_token
              { sub := some u.id, email := some u.email })),
          pre ++ u :: post))
    ∧ (dto.provider ∉ u.providers.map Provider.provider →
      SocialAuthService.link_account (pre ++ u :: post) dto now verifiedAt
        = (.ok (.userToken (UserService.formatUser
            { u with
              providers := u.providers ++
                [{ providerId := dto.providerId, provider := dto.provider }]
              emailVerifiedAt := some verifiedAt })
            (AuthHelper.create_access_token
              { sub := some u.id, email := some u.email })),
          pre ++
            { u with
              providers := u.providers ++
                [{ providerId := dto.providerId, provider := dto.provider }]
              emailVerifiedAt := some verifiedAt } :: post)
      ∧ ((u.providers.map Provider.provider).Nodup →
          (({ u with
              providers := u.providers ++
                [{ providerId := dto.providerId, provider := dto.provider }]
              emailVerifiedAt := some verifiedAt } : UserDoc).providers.map
                Provider.provider).Nodup)) := by
  have hnot : ¬ (exp > now) := Int.not_lt.mpr hle
  have hfind : (pre ++ u :: post).find?
      (fun v => v.email == dto.email && v.OTP == some n) = some u :=
    find?_sandwich hpre hu
  constructor
  · intro hmem
    obtain ⟨p, hpmem, hpe⟩ := List.mem_map.mp hmem
    have hqu : (u.id == u.id &&
        u.providers.all (fun p => p.provider != dto.provider)) = false := by
      have : ¬ (u.providers.all (fun p => p.provider != dto.provider) = true) := by
        simp only [List.all_eq_true]
        intro hall
        have := hall p hpmem
        simp [hpe] at this
      simp [Bool.eq_false_iff.mpr this]
    have hupd : update_one (pre ++ u :: post)
        (fun v => v.id == u.id &&
          v.providers.all (fun p => p.provider != dto.provider))
        (fun v =>
          { v with
            providers := v.providers ++
              [{ providerId := dto.providerId, provider := dto.provider }]
            emailVerifiedAt := some verifiedAt })
        = pre ++ u :: post := by
      apply update_one_eq_of_forall_neg
      intro v hv
      rcases List.mem_append.mp hv with hv | hv
      · simp [hpre_id v hv]
      · rcases List.mem_cons.mp hv with hv | hv
        · exact hv ▸ hqu
        · simp [hpost_id v hv]
    have hre : (pre ++ u :: post).find? (fun v => v.id == u.id) = some u :=
      find?_sandwich hpre_id (by simp)
    unfold SocialAuthService.link_account
    simp only [python_int, hparse, hfind, hexp]
    rw [if_neg hnot]
    simp only [hupd, hre]
  · intro habs
    have hall : u.providers.all (fun p => p.provider != dto.provider) = true := by
      simp only [List.all_eq_true]
      intro p hpmem
      have : p.provider ≠ dto.provider := by
        intro hcontra
        exact habs (List.mem_map.mpr ⟨p, hpmem, hcontra⟩)
      simp [this]
    have hqu : (u.id == u.id &&
        u.providers.all (fun p => p.provider != dto.provider)) = true := by
      simp [hall]
    have hupd : update_one (pre ++ u :: post)
        (fun v => v.id == u.id &&
          v.providers.all (fun p => p.provider != dto.provider))
        (fun v =>
          { v with
            providers := v.providers ++
              [{ providerId := dto.providerId, provider := dto.provider }]
            emailVerifiedAt := some verifiedAt })
        = pre ++
            { u with
              providers := u.providers ++
                [{ providerId := dto.providerId, provider := dto.provider }]
              emailVerifiedAt := some verifiedAt } :: post := by
      apply update_one_append_sandwich
      · intro v hv
        simp [hpre_id v hv]
      · exact hqu
    have hre : (pre ++
        { u with
          providers := u.providers ++
            [{ providerId := dto.providerId, provider := dto.provider }]
          emailVerifiedAt := some verifiedAt } :: post).find?
            (fun v => v.id == u.id)
        = some { u with
            providers := u.providers ++
              [{ providerId := dto.providerId, provider := dto.provider }]
            emailVerifiedAt := some verifiedAt } :=
      find?_sandwich hpre_id (by simp)
    refine ⟨?_, ?_⟩
    · unfold SocialAuthService.link_account
      simp only [python_int, hparse, hfind, hexp]
      rw [if_neg hnot]
      simp only [hupd, hre]
      rw [hexp]
    · intro hnd
      simp only [List.map_append, List.map_cons, List.map_nil]
      exact List.Nodup.append hnd (List.nodup_singleton _)
        (fun a ha hb => habs (by simpa [List.mem_singleton.mp hb] using ha))

/-- Witness for C7: on `calDoc` (providers `[google]`, OTP 2222, expiry 50,
time 100), re-linking `google` is a no-op returning the unchanged user, while
linking `github` appends the entry, stamps `emailVerifiedAt`, and keeps the
provider names duplicate-free. -/
theorem link_account_no_duplicate_provider_witness :
    (SocialAuthService.link_account [calDoc]
      { email := "cal@x.com", otp := "2222", providerId := "g-2", provider := "google" }
      100 77
      = (.ok (.userToken (UserService.formatUser calDoc)
          (AuthHelper.create_access_token
            { sub := some calDoc.id, email := some calDoc.email })),
        [calDoc]))
    ∧ (SocialAuthService.link_account [calDoc]
      { email := "cal@x.com", otp := "2222", providerId := "h-1", provider := "github" }
      100 77
      = (.ok (.userToken (UserService.formatUser
          { calDoc with
            providers := calDoc.providers ++
              [{ providerId := "h-1", provider := "github" }]
            emailVerifiedAt := some 77 })
          (AuthHelper.create_access_token
            { sub := some calDoc.id, email := some calDoc.email })),
        [{ calDoc with
            providers := calDoc.providers ++
              [{ providerId := "h-1", provider := "github" }]
            emailVerifiedAt := some 77 }]))
    ∧ (({ calDoc with
          providers := calDoc.providers ++
            [{ providerId := "h-1", provider := "github" }]
          emailVerifiedAt := some 77 } : UserDoc).providers.map
            Provider.provider).Nodup :=
  ⟨(link_account_no_duplicate_provider [] [] calDoc
      { email := "cal@x.com", otp := "2222", providerId := "g-2", provider := "google" }
      2222 100 77 50 (by decide) (by simp) (by decide) (by decide) (by decide)
      (by simp) (by simp)).1 (by decide),
   ((link_account_no_duplicate_provider [] [] calDoc
      { email := "cal@x.com", otp := "2222", providerId := "h-1", provider := "github" }
      2222 100 77 50 (by decide) (by simp) (by decide) (by decide) (by decide)
      (by simp) (by simp)).2 (by decide)).1,
   ((link_account_no_duplicate_provider [] [] calDoc
      { email := "cal@x.com", otp := "2222", providerId := "h-1", provider := "github" }
      2222 100 77 50 (by decide) (by simp) (by decide) (by decide) (by decide)
      (by simp) (by simp)).2 (by decide)).2 (by decide)⟩

/-! ### C8 -/

/-- C8: the auth middleware fails `401 UNAUTHORIZED_ACCESS` when the
`Authorization` header is absent; fails `401 INVALID_TOKEN` when the token
signature does not verify against the server secret (tampered token); fails
`404 USER_NOT_EXISTS` when a valid token's subject matches no stored user;
and a token issued by a successful `login_user` resolves (in a store with
unique ids) to exactly the authenticated user, attached to the request
context, with the token subject equal to that user's id. -/
theorem auth_middleware_gate (store : List UserDoc) :
    (UserDecorator none store = .response 401 .UNAUTHORIZED_ACCESS)
    ∧ (∀ tok : Jwt, (tok.signature == AuthHelper.SECRET_KEY) = false →
        UserDecorator (some tok) store = .response 401 .INVALID_TOKEN)
    ∧ (∀ tok : Jwt, ∀ s : String, tok.signature = AuthHelper.SECRET_KEY →
        tok.payload.sub = some s →
        store.find? (fun v => v.id == s) = none →
        UserDecorator (some tok) store = .response 404 .USER_NOT_EXISTS)
    ∧ (∀ email password : String, ∀ otp otpExpireAt : Int, ∀ sOk : Bool,
        ∀ usr : UserDoc, ∀ token : Jwt, ∀ store2 : List UserDoc,
        AuthService.login_user store email password otp otpExpireAt sOk
          = (.ok (.userToken usr token), store2) →
        (∀ v ∈ store, ∀ w ∈ store, v.id = w.id → v = w) →
        UserDecorator (some token) store = .proceed usr
          ∧ token.payload.sub = some usr.id) := by
  refine ⟨rfl, ?_, ?_, ?_⟩
  · intro tok h
    simp [UserDecorator, jwt_decode, h]
  · intro tok s hsig hsub hnone
    simp [UserDecorator, jwt_decode, hsig, hsub, hnone]
  · intro email password otp otpExpireAt sOk usr token store2 hlogin hinj
    unfold AuthService.login_user at hlogin
    cases hfind : store.find? (fun v => v.email == py_lower email) with
    | none =>
      rw [hfind] at hlogin
      simp at hlogin
    | some u =>
      rw [hfind] at hlogin
      by_cases hver : u.emailVerifiedAt.isNone = true
      · cases sOk <;> simp [hver, send_email] at hlogin
      · have hb : u.emailVerifiedAt.isNone = false :=
          Bool.eq_false_iff.mpr hver
        simp only [hb, Bool.false_eq_true, if_false] at hlogin
        cases hauth : AuthHelper.authenticate_user store email password with
        | error e =>
          rw [hauth] at hlogin
          simp at hlogin
        | ok o =>
          cases o with
          | none =>
            rw [hauth] at hlogin
            simp at hlogin
          | some w =>
            rw [hauth] at hlogin
            simp only [Prod.mk.injEq, Except.ok.injEq, ILogin.userToken.injEq] at hlogin
            obtain ⟨⟨husr, htok⟩, hstore⟩ := hlogin
            have hmem : u ∈ store := List.mem_of_find?_eq_some hfind
            have hre : store.find? (fun v => v.id == u.id) = some u :=
              find?_eq_of_mem_unique hmem (by simp)
                (fun v hv hpv => hinj v hv u hmem (by simpa using hpv))
            subst husr htok
            constructor
            · simp [UserDecorator, jwt_decode, AuthHelper.create_access_token, hre,
                UserService.formatUser]
            · rfl

/-- Witness for C8: the four middleware outcomes on the store `[annDoc]` —
missing header, tampered signature, unknown subject, and the round trip of a
token issued by a successful login. -/
theorem auth_middleware_gate_witness :
    (UserDecorator none [annDoc] = .response 401 .UNAUTHORIZED_ACCESS)
    ∧ (UserDecorator
        (some { payload := { sub := some "id-ann", email := some "ann@x.com" },
                signature := "tampered" }) [annDoc]
      = .response 401 .INVALID_TOKEN)
    ∧ (UserDecorator
        (some { payload := { sub := some "id-ghost", email := none },
                signature := AuthHelper.SECRET_KEY }) [annDoc]
      = .response 404 .USER_NOT_EXISTS)
    ∧ (UserDecorator
        (some (AuthHelper.create_access_token
          { sub := some "id-ann", email := some "ann@x.com" })) [annDoc]
      = .proceed annDoc
      ∧ (AuthHelper.create_access_token
          { sub := some "id-ann", email := some "ann@x.com" }).payload.sub
        = some annDoc.id) :=
  ⟨(auth_middleware_gate [annDoc]).1,
   (auth_middleware_gate [annDoc]).2.1
     { payload := { sub := some "id-ann", email := some "ann@x.com" },
       signature := "tampered" } (by decide),
   (auth_middleware_gate [annDoc]).2.2.1
     { payload := { sub := some "id-ghost", email := none },
       signature := AuthHelper.SECRET_KEY } "id-ghost" rfl rfl (by decide),
   (auth_middleware_gate [annDoc]).2.2.2 "ann@x.com" "Oldpass1!" 5 6 true annDoc
     (AuthHelper.create_access_token
       { sub := some "id-ann", email := some "ann@x.com" }) [annDoc]
     (by decide) (by decide)⟩

/-! ### C9 -/

/-- C9 counterexample: the notification send precedes the store write in the
OTP-issuing flows, and a send failure is an uncaught exception.  On the
unverified `bobDoc` (stored OTP 1111), `identify_user` with a failing send
raises and leaves the store unchanged — the freshly generated OTP 2222 is NOT
stored; likewise `handle_resend_otp` on `annDoc`. -/
theorem otp_stored_despite_send_failure_counterexample :
    bobDoc.OTP = some 1111
    ∧ AuthService.identify_user [bobDoc] "bob@x.com" 2222 999 false
        = (.error .exn, [bobDoc])
    ∧ annDoc.OTP = some 4821
    ∧ AuthService.handle_resend_otp [annDoc] "ann@x.com" 2222 999 false
        = (.error .exn, [annDoc]) := by
  decide

/-- C9 amended: in every OTP-issuing flow that sends before writing
(identify on an unverified user, resend-otp, forgot-password on a verified
user, login on an unverified user), the newly generated OTP and expiry are
stored only when the notification send returns without raising: a raising
send aborts the flow with the store unchanged, and a successful send is
followed unconditionally by the store write. -/
theorem otp_write_only_after_send
    (store : List UserDoc) (email : String) (otp otpExpireAt : Int) (u : UserDoc)
    (hfind : store.find? (fun v => v.email == py_lower email) = some u) :
    (u.emailVerifiedAt = none →
      AuthService.identify_user store email otp otpExpireAt false
        = (.error .exn, store)
      ∧ AuthService.identify_user store email otp otpExpireAt true
        = (.ok (.nextStep .VERIFY_EMAIL),
          update_by_id store u.id
            (fun v => { v with OTP := some otp, OTPExpireAt := some otpExpireAt })))
    ∧ (AuthService.handle_resend_otp store email otp otpExpireAt false
        = (.error .exn, store)
      ∧ AuthService.handle_resend_otp store email otp otpExpireAt true
        = (.ok (),
          update_by_id store u.id
            (fun v => { v with OTP := some otp, OTPExpireAt := some otpExpireAt })))
    ∧ (∀ t, u.emailVerifiedAt = some t →
      AuthService.handle_forgot_password store email otp otpExpireAt false
        = (.error .exn, store)
      ∧ AuthService.handle_forgot_password store email otp otpExpireAt true
        = (.ok (),
          update_by_id store u.id
            (fun v => { v with OTP := some otp, OTPExpireAt := some otpExpireAt })))
    ∧ (∀ password, u.emailVerifiedAt = none →
      AuthService.login_user store email password otp otpExpireAt false
        = (.error .exn, store)
      ∧ AuthService.login_user store email password otp otpExpireAt true
        = (.error (.http 406 .USER_NOT_VERIFIED),
          update_by_id store u.id
            (fun v => { v with OTP := some otp, OTPExpireAt := some otpExpireAt }))) := by
  refine ⟨?_, ?_, ?_, ?_⟩
  · intro hunv
    constructor
    · simp [AuthService.identify_user, hfind, hunv, send_email]
    · simp [AuthService.identify_user, hfind, hunv, send_email]
  · constructor
    · simp [AuthService.handle_resend_otp, hfind, send_email]
    · simp [AuthService.handle_resend_otp, hfind, send_email]
  · intro t ht
    constructor
    · simp [AuthService.handle_forgot_password, hfind, ht, send_email]
    · simp [AuthService.handle_forgot_password, hfind, ht, send_email]
  · intro password hunv
    constructor
    · simp [AuthService.login_user, hfind, hunv, send_email]
    · simp [AuthService.login_user, hfind, hunv, send_email]

/-- Witness for the amended C9: `bobDoc` (unverified) for identify, resend
and login; `annDoc` (verified) for forgot-password. -/
theorem otp_write_only_after_send_witness :
    (AuthService.identify_user [bobDoc] "bob@x.com" 2222 999 false
        = (.error .exn, [bobDoc])
      ∧ AuthService.identify_user [bobDoc] "bob@x.com" 2222 999 true
        = (.ok (.nextStep .VERIFY_EMAIL),
          update_by_id [bobDoc] bobDoc.id
            (fun v => { v with OTP := some 2222, OTPExpireAt := some 999 })))
    ∧ (AuthService.handle_resend_otp [bobDoc] "bob@x.com" 2222 999 false
        = (.error .exn, [bobDoc])
      ∧ AuthService.handle_resend_otp [bobDoc] "bob@x.com" 2222 999 true
        = (.ok (),
          update_by_id [bobDoc] bobDoc.id
            (fun v => { v with OTP := some 2222, OTPExpireAt := some 999 })))
    ∧ (AuthService.handle_forgot_password [annDoc] "ann@x.com" 2222 999 false
        = (.error .exn, [annDoc])
      ∧ AuthService.handle_forgot_password [annDoc] "ann@x.com" 2222 999 true
        = (.ok (),
          update_by_id [annDoc] annDoc.id
            (fun v => { v with OTP := some 2222, OTPExpireAt := some 999 })))
    ∧ (AuthService.login_user [bobDoc] "bob@x.com" "pw" 2222 999 false
        = (.error .exn, [bobDoc])
      ∧ AuthService.login_user [bobDoc] "bob@x.com" "pw" 2222 999 true
        = (.error (.http 406 .USER_NOT_VERIFIED),
          update_by_id [bobDoc] bobDoc.id
            (fun v => { v with OTP := some 2222, OTPExpireAt := some 999 }))) :=
  ⟨(otp_write_only_after_send [bobDoc] "bob@x.com" 2222 999 bobDoc (by decide)).1 rfl,
   (otp_write_only_after_send [bobDoc] "bob@x.com" 2222 999 bobDoc (by decide)).2.1,
   (otp_write_only_after_send [annDoc] "ann@x.com" 2222 999 annDoc (by decide)).2.2.1
     10 rfl,
   (otp_write_only_after_send [bobDoc] "bob@x.com" 2222 999 bobDoc (by decide)).2.2.2
     "pw" rfl⟩

/-! ### C10 -/

/-- C10 counterexample: `social_login` on the fresh mixed-case email
`Alice@x.com` stores the document with the email exactly as submitted (no
password, no `emailVerifiedAt`) and issues a bearer token — but a subsequent
password login for that same email does NOT take the unverified branch: the
login lookup lowercases the email and finds nothing, failing
`404 USER_NOT_EXISTS`. -/
theorem social_login_then_login_counterexample :
    SocialAuthService.social_login [] "Alice@x.com" "Alice" "p-9" "google"
      0 0 "id-alice" true
      = (.ok (.userToken (UserService.formatUser aliceDoc)
          (AuthHelper.create_access_token
            { sub := some "id-alice", email := some "Alice@x.com" })),
        [aliceDoc])
    ∧ aliceDoc.password = none
    ∧ aliceDoc.emailVerifiedAt = none
    ∧ AuthService.login_user [aliceDoc] "Alice@x.com" "whatever" 1 2 true
        = (.error (.http 404 .USER_NOT_EXISTS), [aliceDoc]) := by
  decide

/-- C10 amended: every document created by the new-email path of
`social_login` is stored without a `password` and without `emailVerifiedAt`,
and a bearer token is issued for it; when the submitted email is already in
lowercase form (so the stored email matches the lowercased login lookup),
any subsequent password login for that email takes the unverified branch —
storing a fresh OTP and expiry and failing `406 NOT_ACCEPTABLE`. -/
theorem social_login_new_user_passwordless_unverified
    (store : List UserDoc)
    (email full_name provider_id provider loginEmail password newId : String)
    (otp otpExpireAt otp2 otpExpireAt2 : Int)
    (hmiss : store.find? (fun v => v.email == py_lower email) = none)
    (hlowe : py_lower email = email)
    (hfresh : ∀ v ∈ store, (v.id == newId) = false)
    (hlog : py_lower loginEmail = email) :
    SocialAuthService.social_login store email full_name provider_id provider
      otp otpExpireAt newId true
      = (.ok (.userToken (UserService.formatUser
          { id := newId, fullName := full_name, email := email, password := none
            emailVerifiedAt := none, OTP := none, OTPExpireAt := none
            providers := [{ providerId := provider_id, provider := provider }]
            isActive := true, role := none })
          (AuthHelper.create_access_token
            { sub := some newId, email := some email })),
        store ++
          [{ id := newId, fullName := full_name, email := email, password := none
             emailVerifiedAt := none, OTP := none, OTPExpireAt := none
             providers := [{ providerId := provider_id, provider := provider }]
             isActive := true, role := none }])
    ∧ AuthService.login_user
        (store ++
          [{ id := newId, fullName := full_name, email := email, password := none
             emailVerifiedAt := none, OTP := none, OTPExpireAt := none
             providers := [{ providerId := provider_id, provider := provider }]
             isActive := true, role := none }])
        loginEmail password otp2 otpExpireAt2 true
      = (.error (.http 406 .USER_NOT_VERIFIED),
        update_by_id
          (store ++
            [{ id := newId, fullName := full_name, email := email, password := none
               emailVerifiedAt := none, OTP := none, OTPExpireAt := none
               providers := [{ providerId := provider_id, provider := provider }]
               isActive := true, role := none }])
          newId
          (fun v => { v with OTP := some otp2, OTPExpireAt := some otpExpireAt2 })) := by
  have href : (store ++
      [({ id := newId, fullName := full_name, email := email, password := none
          emailVerifiedAt := none, OTP := none, OTPExpireAt := none
          providers := [{ providerId := provider_id, provider := provider }]
          isActive := true, role := none } : UserDoc)]).find? (fun v => v.id == newId)
      = some { id := newId, fullName := full_name, email := email, password := none
               emailVerifiedAt := none, OTP := none, OTPExpireAt := none
               providers := [{ providerId := provider_id, provider := provider }]
               isActive := true, role := none } :=
    find?_sandwich hfresh (by simp)
  have hfinde : (store ++
      [({ id := newId, fullName := full_name, email := email, password := none
          emailVerifiedAt := none, OTP := none, OTPExpireAt := none
          providers := [{ providerId := provider_id, provider := provider }]
          isActive := true, role := none } : UserDoc)]).find?
        (fun v => v.email == py_lower loginEmail)
      = some { id := newId, fullName := full_name, email := email, password := none
               emailVerifiedAt := none, OTP := none, OTPExpireAt := none
               providers := [{ providerId := provider_id, provider := provider }]
               isActive := true, role := none } := by
    rw [hlog]
    apply find?_sandwich
    · intro v hv
      have hne := List.find?_eq_none.mp hmiss v hv
      rw [hlowe] at hne
      simpa using hne
    · simp
  constructor
  · unfold SocialAuthService.social_login
    simp only [hmiss, href]
  · unfold AuthService.login_user
    simp only [hfinde, Option.isNone_none, if_true, send_email, ite_true]

/-- Witness for the amended C10: fresh lowercase email `alice@x.com` via
social login, then a password login attempt as `Alice@X.com` hits the
unverified branch. -/
theorem social_login_new_user_passwordless_unverified_witness :
    SocialAuthService.social_login [] "alice@x.com" "Alice" "p-9" "google"
      3 4 "id-al" true
      = (.ok (.userToken (UserService.formatUser
          { id := "id-al", fullName := "Alice", email := "alice@x.com"
            password := none, emailVerifiedAt := none, OTP := none
            OTPExpireAt := none
            providers := [{ providerId := "p-9", provider := "google" }]
            isActive := true, role := none })
          (AuthHelper.create_access_token
            { sub := some "id-al", email := some "alice@x.com" })),
        [{ id := "id-al", fullName := "Alice", email := "alice@x.com"
           password := none, emailVerifiedAt := none, OTP := none
           OTPExpireAt := none
           providers := [{ providerId := "p-9", provider := "google" }]
           isActive := true, role := none }])
    ∧ AuthService.login_user
        [{ id := "id-al", fullName := "Alice", email := "alice@x.com"
           password := none, emailVerifiedAt := none, OTP := none
           OTPExpireAt := none
           providers := [{ providerId := "p-9", provider := "google" }]
           isActive := true, role := none }]
        "Alice@X.com" "pw" 5 6 true
      = (.error (.http 406 .USER_NOT_VERIFIED),
        update_by_id
          [{ id := "id-al", fullName := "Alice", email := "alice@x.com"
             password := none, emailVerifiedAt := none, OTP := none
             OTPExpireAt := none
             providers := [{ providerId := "p-9", provider := "google" }]
             isActive := true, role := none }]
          "id-al"
          (fun v => { v with OTP := some 5, OTPExpireAt := some 6 })) :=
  social_login_new_user_passwordless_unverified [] "alice@x.com" "Alice" "p-9"
    "google" "Alice@X.com" "pw" "id-al" 3 4 5 6
    rfl (by decide) (by simp) (by decide)
